import Mathlib

/-!
Shallow embedding of the research source-processing pipeline of
`src/backend/app/services/source_services/source_processing/research_processor.py`.

External collaborators (the Perplexity service, the Claude cross-check and
deep-research agents, the embedding service, the summary service) are modelled
as oracle outcomes supplied in an `Env`; a call that raises a Python exception
is an `Except.error` outcome.  The persisted source record, the processed-text
file and the event trace are threaded as explicit state (`St`).
-/

namespace NoobBook

/-- Opaque usage payload returned by a provider call (`result.get("usage", {})`). -/
abbrev Usage := String

/-- Opaque summary payload returned by `summary_service.generate_summary`. -/
abbrev SummaryInfo := String

/-- The `embedding_info` record shape produced by `_process_embeddings` /
`embedding_service.process_embeddings`. -/
structure EmbeddingInfo where
  is_embedded : Bool
  embedded_at : Option String
  token_count : Nat
  chunk_count : Nat
  reason : String
deriving DecidableEq, Repr

/-- The `processing_info` dict written by `process_research`: either the error
payload of the except-branch (lines 117-120) or the success payload (lines 148-158). -/
inductive ProcessingInfo where
  | errorInfo (error : String) (processor : String)
  | okInfo (processor : String) (topic : String) (link_count : Nat)
      (character_count : Nat) (token_count : Nat) (total_pages : Nat)
      (segments_written : Nat) (iterations : Nat) (researched_at : String)
deriving DecidableEq, Repr

/-- Modelled from the spec: the persisted Source record (spec section 3); only the
fields `process_research` touches are carried. -/
structure SourceRecord where
  status : String
  active : Bool
  processing_info : Option ProcessingInfo
  embedding_info : Option EmbeddingInfo
  summary_info : Option SummaryInfo
deriving DecidableEq, Repr

/-- Modelled from the spec: the keyword arguments of one
`source_service.update_source` call (spec section 6: partial-field update
semantics, unspecified fields are left unchanged).  `none` means the field was
not supplied in the call. -/
structure UpdateArgs where
  status : Option String
  active : Option Bool
  processing_info : Option ProcessingInfo
  embedding_info : Option EmbeddingInfo
  summary_info : Option SummaryInfo
deriving DecidableEq, Repr

/-- Modelled from the spec: `update_source` applies a partial-field update to the
persisted record; unspecified fields are left unchanged (spec section 6). -/
def applyUpdate (r : SourceRecord) (u : UpdateArgs) : SourceRecord :=
  { status := u.status.getD r.status
    active := u.active.getD r.active
    processing_info := match u.processing_info with
      | some p => some p
      | none => r.processing_info
    embedding_info := match u.embedding_info with
      | some e => some e
      | none => r.embedding_info
    summary_info := match u.summary_info with
      | some s => some s
      | none => r.summary_info }

/-- Observable events of one processing attempt, in program order. -/
inductive Event where
  | update (u : UpdateArgs)
  | write (content : String)
  | perplexityCall
  | crosscheckCall
  | claudeCall
  | embedCall
  | summaryCall
deriving DecidableEq, Repr

/-- The mutable state of one attempt: the persisted source record, the
processed-text file for `(project_id, source_id)` (`none` = absent), the number
of writes issued to that file during the attempt, and the event trace. -/
structure St where
  record : SourceRecord
  file : Option String
  fileWrites : Nat
  trace : List Event
deriving DecidableEq, Repr

def logEvent (st : St) (e : Event) : St :=
  { st with trace := st.trace ++ [e] }

/-- `open(processed_path, "w").write(content)`: overwrite the processed-text file. -/
def writeProcessed (st : St) (content : String) : St :=
  { st with file := some content, fileWrites := st.fileWrites + 1,
            trace := st.trace ++ [Event.write content] }

/-- One `source_service.update_source(project_id, source_id, ...)` call. -/
def updateSource (st : St) (u : UpdateArgs) : St :=
  { st with record := applyUpdate st.record u, trace := st.trace ++ [Event.update u] }

/-- Initial state of an attempt: record fields as they stand when
`process_research` is entered, file as left by any prior attempt, no events. -/
def initSt (status : String) (active : Bool) (file : Option String) : St :=
  { record := { status := status, active := active, processing_info := none,
                embedding_info := none, summary_info := none }
    file := file, fileWrites := 0, trace := [] }

/-- The research request parsed from the `.research` JSON file; `none` models a
missing key (read through `.get` with the defaults of lines 60-63). -/
structure ResearchRequest where
  topic : Option String
  description : Option String
  links : Option (List String)
  provider : Option String
deriving DecidableEq, Repr

/-- Result dict of a single search-augmented provider call
(`perplexity_service.research` / `crosscheck_service.crosscheck_research`),
read through `.get`: `success` is the truthiness of `get("success")`, the other
fields are `none` when the key is absent. -/
structure ProviderResult where
  success : Bool
  error : Option String
  content : Option String
  citations : Option (List String)
  usage : Option Usage
deriving DecidableEq, Repr

/-- Result dict returned by a research strategy
(`_research_with_perplexity` / `deep_research_agent.research`). -/
structure StrategyResult where
  success : Bool
  error : Option String
  segments_written : Option Nat
  iterations : Option Nat
  usage : List (String × Usage)
  citations : List String
deriving DecidableEq, Repr

/-- The dict returned by `process_research` itself. -/
structure PRReturn where
  success : Bool
  error : Option String
  status : Option String
deriving DecidableEq, Repr

/-- Source metadata dict (`source.get("name", topic)`). -/
structure SourceMeta where
  name : Option String
deriving DecidableEq, Repr

/-- Oracle outcomes for the external calls one attempt makes.  `Except.error e`
models the call raising an exception whose `str` is `e`.  `claudeWritten` is the
content the deep-research agent writes to `output_path` itself (`none` = it does
not write). -/
structure Env where
  loadRequest : Except String ResearchRequest
  perplexityRes : Except String ProviderResult
  crosscheckRes : Except String ProviderResult
  claudeWritten : Option String
  claudeRes : Except String StrategyResult
  embedRes : Except String EmbeddingInfo
  summaryRes : Except String (Option SummaryInfo)
  now : String

/-- Modelled from the spec: `count_tokens` of `app/utils/embedding_utils.py` is
not under `src/`; the spec (section 2) describes token counting as a pure
function of the text.  The exact count is unconstrained by the spec; we use the
character length as the concrete stand-in. -/
def count_tokens (text : String) : Nat := text.length

/-- Modelled from the spec: `needs_embedding` of `app/utils/embedding_utils.py`
is not under `src/`; the spec (sections 2, 4.3) describes it as a pure
token-count/size heuristic returning whether the text needs chunked embedding,
a token count and a reason string. -/
def needs_embedding (text : String) : Bool × Nat × String :=
  (decide (0 < text.length), count_tokens text, "token threshold check")

/-- Metadata handed to the envelope builder (lines 128-133). -/
structure Metadata where
  topic : String
  link_count : Nat
  character_count : Nat
  token_count : Nat
deriving DecidableEq, Repr

/-- Modelled from the spec: the header metadata block of the canonical envelope
(spec section 6: "header metadata block (source type, name, per-field counters)
followed by the body text"). -/
def envelope_header (source_type : String) (source_name : String) (m : Metadata) : String :=
  "[" ++ source_type ++ "] " ++ source_name ++ " | topic=" ++ m.topic ++
  " links=" ++ toString m.link_count ++ " chars=" ++ toString m.character_count ++
  " tokens=" ++ toString m.token_count ++ "\n\n"

/-- Modelled from the spec: `build_processed_output` of `app/utils/text.py` is
not under `src/`; the spec (section 6) specifies the canonical envelope as a
header metadata block followed by the body text. -/
def build_processed_output (pages : List String) (source_type : String)
    (source_name : String) (m : Metadata) : String :=
  envelope_header source_type source_name m ++ String.intercalate "\n\n" pages

/-- `_research_with_perplexity` (lines 290-374): Perplexity draft call, Claude
cross-check call, write of the final content to `processed_path`, combined
result.  A stage whose dict is not a success raises with that stage's error
message; a raise from the underlying service propagates. -/
def research_with_perplexity (env : Env) (st : St) :
    (Except String StrategyResult) × St :=
  match env.perplexityRes with
  | .error e => (.error e, logEvent st .perplexityCall)
  | .ok p =>
    let st := logEvent st .perplexityCall
    if p.success = false then
      (.error (p.error.getD "Perplexity research failed"), st)
    else
      let cites := p.citations.getD []
      let perplexity_usage := p.usage.getD ""
      match env.crosscheckRes with
      | .error e => (.error e, logEvent st .crosscheckCall)
      | .ok c =>
        let st := logEvent st .crosscheckCall
        if c.success = false then
          (.error (c.error.getD "Cross-check failed"), st)
        else
          let final_content := c.content.getD ""
          let claude_usage := c.usage.getD ""
          let st := writeProcessed st final_content
          (.ok { success := true, error := none, segments_written := some 1,
                 iterations := some 2,
                 usage := [("perplexity", perplexity_usage), ("claude", claude_usage)],
                 citations := cites }, st)

/-- `_research_with_claude` (lines 251-287): one opaque call to
`deep_research_agent.research`, which writes `output_path` itself and returns
the strategy result dict (or raises). -/
def research_with_claude (env : Env) (st : St) :
    (Except String StrategyResult) × St :=
  let st := logEvent st .claudeCall
  let st := match env.claudeWritten with
    | some content => writeProcessed st content
    | none => st
  match env.claudeRes with
  | .error e => (.error e, st)
  | .ok r => (.ok r, st)

/-- `_process_embeddings` (lines 187-226): status write to `"embedding"`, then
the external embedding call; any raise is caught and converted to an
`is_embedded = false` info whose reason carries the error string. -/
def process_embeddings (env : Env) (processed_text : String) (st : St) :
    EmbeddingInfo × St :=
  let _heuristic := needs_embedding processed_text
  let st := updateSource st ⟨some "embedding", none, none, none, none⟩
  let st := logEvent st .embedCall
  match env.embedRes with
  | .error e =>
      ({ is_embedded := false, embedded_at := none, token_count := 0,
         chunk_count := 0, reason := "Embedding error: " ++ e }, st)
  | .ok info => (info, st)

/-- `_generate_summary` (lines 229-248): best-effort; a raise or a falsy result
yields the empty dict, modelled as `none`. -/
def generate_summary (env : Env) (st : St) : Option SummaryInfo × St :=
  let st := logEvent st .summaryCall
  match env.summaryRes with
  | .error _ => (none, st)
  | .ok r =>
    match r with
    | some s => (some s, st)
    | none => (none, st)

/-- The `try:` block of `process_research` (lines 72-109): strategy dispatch on
the provider tag, success check, output-file existence check, empty-content
check.  Returns the research content together with the strategy-reported
`segments_written` and `iterations` (defaulted to 0), or the exception message. -/
def tryBlock (env : Env) (provider : String) (st : St) :
    (Except String (String × Nat × Nat)) × St :=
  let branch :=
    if provider = "perplexity" then research_with_perplexity env st
    else research_with_claude env st
  match branch with
  | (.error e, st) => (.error e, st)
  | (.ok r, st) =>
    if r.success = false then
      (.error (r.error.getD "Research failed"), st)
    else
      match st.file with
      | none => (.error "Research agent did not create output file", st)
      | some research_content =>
        if research_content = "" then
          (.error "Research agent wrote empty content", st)
        else
          (.ok (research_content, r.segments_written.getD 0, r.iterations.getD 0), st)

/-- `process_research` (lines 27-184).  Loading the research request (lines
57-58) happens before the `try:` block, so a raise there propagates out as
`Except.error`.  The except-branch (lines 111-122) persists `status = "error"`
and returns `success = false`; the post-try tail (lines 124-184) builds the
envelope, overwrites the processed file, runs embeddings and summary, and
persists `status = "ready"`, `active = true`. -/
def process_research (env : Env) (source : SourceMeta) (st0 : St) :
    (Except String PRReturn) × St :=
  match env.loadRequest with
  | .error e => (.error e, st0)
  | .ok req =>
    let topic := req.topic.getD "Unknown Topic"
    let links := req.links.getD []
    let provider := req.provider.getD "claude"
    let source_name := source.name.getD topic
    match tryBlock env provider st0 with
    | (.error e, st) =>
      let st := updateSource st
        ⟨some "error", none, some (.errorInfo e "research_processor"), none, none⟩
      (.ok { success := false, error := some e, status := none }, st)
    | (.ok (research_content, segments_written, iterations), st) =>
      let token_count := count_tokens research_content
      let metadata : Metadata :=
        ⟨topic, links.length, research_content.length, token_count⟩
      let processed_content :=
        build_processed_output [research_content] "RESEARCH" source_name metadata
      let st := writeProcessed st processed_content
      let pinfo := ProcessingInfo.okInfo "research_processor" topic links.length
        research_content.length token_count 1 segments_written iterations env.now
      let (embedding_info, st) := process_embeddings env processed_content st
      let (summary_info, st) := generate_summary env st
      let st := updateSource st
        ⟨some "ready", some true, some pinfo, some embedding_info, summary_info⟩
      (.ok { success := true, error := none, status := some "ready" }, st)

/-- `true` iff every `embedCall` in the trace is preceded by an `update` whose
`status` argument is `"embedding"`. -/
def embedsAfterStatusWrite : List Event → Bool → Bool
  | [], _ => true
  | e :: rest, seen =>
    match e with
    | .update u => embedsAfterStatusWrite rest (seen || decide (u.status = some "embedding"))
    | .embedCall => seen && embedsAfterStatusWrite rest seen
    | _ => embedsAfterStatusWrite rest seen

/-- The `update_source` argument lists issued during a trace, in order. -/
def updateArgsOf : List Event → List UpdateArgs
  | [] => []
  | .update u :: rest => u :: updateArgsOf rest
  | _ :: rest => updateArgsOf rest

/-- The successive persisted records reached from `r` by a list of updates. -/
def recordStates (r : SourceRecord) : List UpdateArgs → List SourceRecord
  | [] => []
  | u :: us => applyUpdate r u :: recordStates (applyUpdate r u) us

/-- The data-model invariant: `active == true` implies `status == ready`. -/
def invariantOK (r : SourceRecord) : Bool := !r.active || (r.status == "ready")

/-- Claim C1: in a Perplexity-branch attempt whose draft stage succeeds and whose
cross-check stage returns failure, `process_research` returns success = false
with the cross-check error, persists status = "error", and issues no write to
the processed-text file, which keeps its prior content: the draft is never
persisted as the processed text. -/
theorem claim1_crosscheck_failure_never_exposes_draft
    (tp ds : Option String) (ls : Option (List String)) (nm : Option String)
    (perr dct : Option String) (dci : Option (List String)) (dus : Option Usage)
    (cerr cct : Option String) (cci : Option (List String)) (cus : Option Usage)
    (cw : Option String) (cres : Except String StrategyResult)
    (er : Except String EmbeddingInfo) (sr : Except String (Option SummaryInfo))
    (now s0 : String) (a0 : Bool) (f0 : Option String) :
    process_research
      ⟨.ok ⟨tp, ds, ls, some "perplexity"⟩,
       .ok ⟨true, perr, dct, dci, dus⟩,
       .ok ⟨false, cerr, cct, cci, cus⟩, cw, cres, er, sr, now⟩
      ⟨nm⟩ (initSt s0 a0 f0)
    = (.ok ⟨false, some (cerr.getD "Cross-check failed"), none⟩,
       ⟨⟨"error", a0, some (.errorInfo (cerr.getD "Cross-check failed") "research_processor"),
         none, none⟩,
        f0, 0,
        [.perplexityCall, .crosscheckCall,
         .update ⟨some "error", none,
           some (.errorInfo (cerr.getD "Cross-check failed") "research_processor"),
           none, none⟩]⟩) := by
  rfl

/-- Claim C2: in a Perplexity-branch attempt whose draft stage
(`perplexity_service.research`) returns failure, `process_research` returns
success = false with that stage's error message, persists status = "error",
and issues no write to the processed-text file: starting from an absent file,
none is created. -/
theorem claim2_draft_failure_aborts_without_file
    (tp ds : Option String) (ls : Option (List String)) (nm : Option String)
    (perr dct : Option String) (dci : Option (List String)) (dus : Option Usage)
    (cr : Except String ProviderResult)
    (cw : Option String) (cres : Except String StrategyResult)
    (er : Except String EmbeddingInfo) (sr : Except String (Option SummaryInfo))
    (now s0 : String) (a0 : Bool) :
    process_research
      ⟨.ok ⟨tp, ds, ls, some "perplexity"⟩,
       .ok ⟨false, perr, dct, dci, dus⟩,
       cr, cw, cres, er, sr, now⟩
      ⟨nm⟩ (initSt s0 a0 none)
    = (.ok ⟨false, some (perr.getD "Perplexity research failed"), none⟩,
       ⟨⟨"error", a0, some (.errorInfo (perr.getD "Perplexity research failed")
           "research_processor"), none, none⟩,
        none, 0,
        [.perplexityCall,
         .update ⟨some "error", none,
           some (.errorInfo (perr.getD "Perplexity research failed") "research_processor"),
           none, none⟩]⟩) := by
  rfl

/-- Claim C10: in a Perplexity-branch attempt whose cross-check stage reports success
with empty content, the empty string is written to the processed-text file
(one write, a zero-byte file exists afterwards) and the attempt then fails the
empty-content check, so `process_research` returns success = false with
"Research agent wrote empty content" and persists status = "error". -/
theorem claim10_empty_crosscheck_writes_empty_file_then_errors
    (tp ds : Option String) (ls : Option (List String)) (nm : Option String)
    (perr dct : Option String) (dci : Option (List String)) (dus : Option Usage)
    (cerr : Option String) (cci : Option (List String)) (cus : Option Usage)
    (cw : Option String) (cres : Except String StrategyResult)
    (er : Except String EmbeddingInfo) (sr : Except String (Option SummaryInfo))
    (now s0 : String) (a0 : Bool) (f0 : Option String) :
    process_research
      ⟨.ok ⟨tp, ds, ls, some "perplexity"⟩,
       .ok ⟨true, perr, dct, dci, dus⟩,
       .ok ⟨true, cerr, some "", cci, cus⟩, cw, cres, er, sr, now⟩
      ⟨nm⟩ (initSt s0 a0 f0)
    = (.ok ⟨false, some "Research agent wrote empty content", none⟩,
       ⟨⟨"error", a0,
         some (.errorInfo "Research agent wrote empty content" "research_processor"),
         none, none⟩,
        some "", 1,
        [.perplexityCall, .crosscheckCall, .write "",
         .update ⟨some "error", none,
           some (.errorInfo "Research agent wrote empty content" "research_processor"),
           none, none⟩]⟩) := by
  rfl

/-- Claim C3 counterexample: `json.load` of the research request (lines 57-58) runs
before the `try:` block of `process_research`, so when loading raises — here a
malformed request file — the exception escapes the boundary uncaught and no
error status is persisted, contradicting the claim that every stage's failure
is caught and converted to a status update. -/
theorem claim3_load_failure_exception_escapes :
    (process_research
      ⟨.error "Expecting value: line 1 column 1 (char 0)",
       .ok ⟨true, none, some "DRAFT", none, none⟩,
       .ok ⟨true, none, some "FINAL", none, none⟩, none,
       .ok ⟨true, none, none, none, [], []⟩,
       .ok ⟨true, none, 0, 0, "embedded"⟩, .ok none, "t0"⟩
      ⟨some "S"⟩ (initSt "uploaded" false none)).1
      = .error "Expecting value: line 1 column 1 (char 0)"
    ∧ ((process_research
      ⟨.error "Expecting value: line 1 column 1 (char 0)",
       .ok ⟨true, none, some "DRAFT", none, none⟩,
       .ok ⟨true, none, some "FINAL", none, none⟩, none,
       .ok ⟨true, none, none, none, [], []⟩,
       .ok ⟨true, none, 0, 0, "embedded"⟩, .ok none, "t0"⟩
      ⟨some "S"⟩ (initSt "uploaded" false none)).2).record.status = "uploaded" := by
  exact ⟨rfl, rfl⟩

/-- Claim C3 amended: once loading the research request succeeds, `process_research`
raises no exception across its boundary — every failure of the provider
strategy, of the output checks, of the embedding stage and of the summary
stage is caught and converted to a returned value (the persisted status update
on the strategy-failure path is covered by the C1/C2 theorems). -/
theorem claim3_no_exception_after_request_load
    (req : ResearchRequest) (nm : Option String)
    (pr cr : Except String ProviderResult)
    (cw : Option String) (cres : Except String StrategyResult)
    (er : Except String EmbeddingInfo) (sr : Except String (Option SummaryInfo))
    (now s0 : String) (a0 : Bool) (f0 : Option String) :
    ((process_research ⟨.ok req, pr, cr, cw, cres, er, sr, now⟩ ⟨nm⟩
        (initSt s0 a0 f0)).1).isOk = true := by
  unfold process_research
  rcases htr : tryBlock ⟨.ok req, pr, cr, cw, cres, er, sr, now⟩
      (req.provider.getD "claude") (initSt s0 a0 f0) with ⟨e | v, st⟩
  · simp only [htr]
    rfl
  · rcases v with ⟨c, sg, it⟩
    simp only [htr]
    rfl

/-- Claim C4 counterexample: for a source record entering `process_research` with
`active = true` and `status = "ready"` (a retry of a previously ready source),
the error-path update sets `status = "error"` but does not write `active`
(partial-field update semantics), so after the update `active = true` holds
together with `status = "error"`: the invariant `active == true` implies
`status == ready` is broken, contrary to the claim. -/
theorem claim4_error_update_breaks_invariant_when_active :
    ((process_research
      ⟨.ok ⟨some "T", some "D", some [], some "perplexity"⟩,
       .ok ⟨true, none, some "DRAFT", none, none⟩,
       .ok ⟨false, some "cross-check rejected the draft", none, none, none⟩,
       none, .ok ⟨true, none, none, none, [], []⟩,
       .ok ⟨true, none, 0, 0, "ok"⟩, .ok none, "t0"⟩
      ⟨some "S"⟩ (initSt "ready" true none)).2).record.active = true
    ∧ ((process_research
      ⟨.ok ⟨some "T", some "D", some [], some "perplexity"⟩,
       .ok ⟨true, none, some "DRAFT", none, none⟩,
       .ok ⟨false, some "cross-check rejected the draft", none, none, none⟩,
       none, .ok ⟨true, none, none, none, [], []⟩,
       .ok ⟨true, none, 0, 0, "ok"⟩, .ok none, "t0"⟩
      ⟨some "S"⟩ (initSt "ready" true none)).2).record.status = "error"
    ∧ invariantOK ((process_research
      ⟨.ok ⟨some "T", some "D", some [], some "perplexity"⟩,
       .ok ⟨true, none, some "DRAFT", none, none⟩,
       .ok ⟨false, some "cross-check rejected the draft", none, none, none⟩,
       none, .ok ⟨true, none, none, none, [], []⟩,
       .ok ⟨true, none, 0, 0, "ok"⟩, .ok none, "t0"⟩
      ⟨some "S"⟩ (initSt "ready" true none)).2).record = false := by
  exact ⟨rfl, rfl, rfl⟩

/-- Claim C4 amended: the updates `process_research` issues preserve the invariant
`active == true` implies `status == ready` provided the record enters the
attempt with `active = false`: the error-path and embedding updates never touch
`active`, and the ready-path update sets `active = true` only together with
`status = "ready"`.  (For a record entering with `active = true` the error path
breaks the invariant, as the counterexample shows.) -/
theorem claim4_invariant_preserved_from_inactive_start
    (lr : Except String ResearchRequest) (nm : Option String)
    (pr cr : Except String ProviderResult)
    (cw : Option String) (cres : Except String StrategyResult)
    (er : Except String EmbeddingInfo) (sr : Except String (Option SummaryInfo))
    (now s0 : String) (f0 : Option String) :
    ((recordStates (initSt s0 false f0).record
        (updateArgsOf
          ((process_research ⟨lr, pr, cr, cw, cres, er, sr, now⟩ ⟨nm⟩
            (initSt s0 false f0)).2).trace)).all invariantOK) = true := by
  rcases lr with e | ⟨tp, ds, ls, pv⟩
  · rfl
  · by_cases hpv : pv.getD "claude" = "perplexity"
    · rcases pr with pe | ⟨psucc, perr, pct, pci, pus⟩
      · simp [process_research, tryBlock, research_with_perplexity, research_with_claude,
                  process_embeddings, generate_summary, writeProcessed, logEvent, updateSource,
                  applyUpdate, initSt, updateArgsOf, recordStates, invariantOK, hpv]
      · cases psucc
        · simp [process_research, tryBlock, research_with_perplexity, research_with_claude,
                  process_embeddings, generate_summary, writeProcessed, logEvent, updateSource,
                  applyUpdate, initSt, updateArgsOf, recordStates, invariantOK, hpv]
        · rcases cr with ce | ⟨csucc, cerr, cct, cci, cus⟩
          · simp [process_research, tryBlock, research_with_perplexity, research_with_claude,
                  process_embeddings, generate_summary, writeProcessed, logEvent, updateSource,
                  applyUpdate, initSt, updateArgsOf, recordStates, invariantOK, hpv]
          · cases csucc
            · simp [process_research, tryBlock, research_with_perplexity, research_with_claude,
                  process_embeddings, generate_summary, writeProcessed, logEvent, updateSource,
                  applyUpdate, initSt, updateArgsOf, recordStates, invariantOK, hpv]
            · by_cases hcc : cct.getD "" = ""
              · simp [process_research, tryBlock, research_with_perplexity, research_with_claude,
                  process_embeddings, generate_summary, writeProcessed, logEvent, updateSource,
                  applyUpdate, initSt, updateArgsOf, recordStates, invariantOK, hpv, hcc]
              · rcases er with ee | ei <;> rcases sr with se | (_ | ss) <;>
                  simp [process_research, tryBlock, research_with_perplexity, research_with_claude,
                  process_embeddings, generate_summary, writeProcessed, logEvent, updateSource,
                  applyUpdate, initSt, updateArgsOf, recordStates, invariantOK, hpv, hcc]
    · rcases cres with cle | ⟨clsucc, clerr, clsg, clit, clus, clci⟩
      · rcases cw with _ | cwc <;> simp [process_research, tryBlock, research_with_perplexity, research_with_claude,
                  process_embeddings, generate_summary, writeProcessed, logEvent, updateSource,
                  applyUpdate, initSt, updateArgsOf, recordStates, invariantOK, hpv]
      · cases clsucc
        · rcases cw with _ | cwc <;> simp [process_research, tryBlock, research_with_perplexity, research_with_claude,
                  process_embeddings, generate_summary, writeProcessed, logEvent, updateSource,
                  applyUpdate, initSt, updateArgsOf, recordStates, invariantOK, hpv]
        · rcases cw with _ | cwc
          · rcases f0 with _ | f0c
            · simp [process_research, tryBlock, research_with_perplexity, research_with_claude,
                  process_embeddings, generate_summary, writeProcessed, logEvent, updateSource,
                  applyUpdate, initSt, updateArgsOf, recordStates, invariantOK, hpv]
            · by_cases hf : f0c = ""
              · simp [process_research, tryBlock, research_with_perplexity, research_with_claude,
                  process_embeddings, generate_summary, writeProcessed, logEvent, updateSource,
                  applyUpdate, initSt, updateArgsOf, recordStates, invariantOK, hpv, hf]
              · rcases er with ee | ei <;> rcases sr with se | (_ | ss) <;>
                  simp [process_research, tryBlock, research_with_perplexity, research_with_claude,
                  process_embeddings, generate_summary, writeProcessed, logEvent, updateSource,
                  applyUpdate, initSt, updateArgsOf, recordStates, invariantOK, hpv, hf]
          · by_cases hw : cwc = ""
            · simp [process_research, tryBlock, research_with_perplexity, research_with_claude,
                  process_embeddings, generate_summary, writeProcessed, logEvent, updateSource,
                  applyUpdate, initSt, updateArgsOf, recordStates, invariantOK, hpv, hw]
            · rcases er with ee | ei <;> rcases sr with se | (_ | ss) <;>
                simp [process_research, tryBlock, research_with_perplexity, research_with_claude,
                  process_embeddings, generate_summary, writeProcessed, logEvent, updateSource,
                  applyUpdate, initSt, updateArgsOf, recordStates, invariantOK, hpv, hw]

/-- Claim C7: in every attempt, whatever the oracle outcomes, each embedding call in
the event trace is preceded by a persisted status update to `"embedding"`: the
status write happens before the first (and only) external embedding call, so no
embedding call is issued while the persisted status is still an earlier one. -/
theorem claim7_status_embedding_before_embed_call
    (lr : Except String ResearchRequest) (nm : Option String)
    (pr cr : Except String ProviderResult)
    (cw : Option String) (cres : Except String StrategyResult)
    (er : Except String EmbeddingInfo) (sr : Except String (Option SummaryInfo))
    (now s0 : String) (a0 : Bool) (f0 : Option String) :
    embedsAfterStatusWrite
      ((process_research ⟨lr, pr, cr, cw, cres, er, sr, now⟩ ⟨nm⟩
        (initSt s0 a0 f0)).2).trace false = true := by
  rcases lr with e | ⟨tp, ds, ls, pv⟩
  · rfl
  · by_cases hpv : pv.getD "claude" = "perplexity"
    · rcases pr with pe | ⟨psucc, perr, pct, pci, pus⟩
      · simp [process_research, tryBlock, research_with_perplexity, research_with_claude,
                  process_embeddings, generate_summary, writeProcessed, logEvent, updateSource,
                  applyUpdate, initSt, updateArgsOf, recordStates, invariantOK, embedsAfterStatusWrite, hpv]
      · cases psucc
        · simp [process_research, tryBlock, research_with_perplexity, research_with_claude,
                  process_embeddings, generate_summary, writeProcessed, logEvent, updateSource,
                  applyUpdate, initSt, updateArgsOf, recordStates, invariantOK, embedsAfterStatusWrite, hpv]
        · rcases cr with ce | ⟨csucc, cerr, cct, cci, cus⟩
          · simp [process_research, tryBlock, research_with_perplexity, research_with_claude,
                  process_embeddings, generate_summary, writeProcessed, logEvent, updateSource,
                  applyUpdate, initSt, updateArgsOf, recordStates, invariantOK, embedsAfterStatusWrite, hpv]
          · cases csucc
            · simp [process_research, tryBlock, research_with_perplexity, research_with_claude,
                  process_embeddings, generate_summary, writeProcessed, logEvent, updateSource,
                  applyUpdate, initSt, updateArgsOf, recordStates, invariantOK, embedsAfterStatusWrite, hpv]
            · by_cases hcc : cct.getD "" = ""
              · simp [process_research, tryBlock, research_with_perplexity, research_with_claude,
                  process_embeddings, generate_summary, writeProcessed, logEvent, updateSource,
                  applyUpdate, initSt, updateArgsOf, recordStates, invariantOK, embedsAfterStatusWrite, hpv, hcc]
              · rcases er with ee | ei <;> rcases sr with se | (_ | ss) <;>
                  simp [process_research, tryBlock, research_with_perplexity, research_with_claude,
                  process_embeddings, generate_summary, writeProcessed, logEvent, updateSource,
                  applyUpdate, initSt, updateArgsOf, recordStates, invariantOK, embedsAfterStatusWrite, hpv, hcc]
    · rcases cres with cle | ⟨clsucc, clerr, clsg, clit, clus, clci⟩
      · rcases cw with _ | cwc <;> simp [process_research, tryBlock, research_with_perplexity, research_with_claude,
                  process_embeddings, generate_summary, writeProcessed, logEvent, updateSource,
                  applyUpdate, initSt, updateArgsOf, recordStates, invariantOK, embedsAfterStatusWrite, hpv]
      · cases clsucc
        · rcases cw with _ | cwc <;> simp [process_research, tryBlock, research_with_perplexity, research_with_claude,
                  process_embeddings, generate_summary, writeProcessed, logEvent, updateSource,
                  applyUpdate, initSt, updateArgsOf, recordStates, invariantOK, embedsAfterStatusWrite, hpv]
        · rcases cw with _ | cwc
          · rcases f0 with _ | f0c
            · simp [process_research, tryBlock, research_with_perplexity, research_with_claude,
                  process_embeddings, generate_summary, writeProcessed, logEvent, updateSource,
                  applyUpdate, initSt, updateArgsOf, recordStates, invariantOK, embedsAfterStatusWrite, hpv]
            · by_cases hf : f0c = ""
              · simp [process_research, tryBlock, research_with_perplexity, research_with_claude,
                  process_embeddings, generate_summary, writeProcessed, logEvent, updateSource,
                  applyUpdate, initSt, updateArgsOf, recordStates, invariantOK, embedsAfterStatusWrite, hpv, hf]
              · rcases er with ee | ei <;> rcases sr with se | (_ | ss) <;>
                  simp [process_research, tryBlock, research_with_perplexity, research_with_claude,
                  process_embeddings, generate_summary, writeProcessed, logEvent, updateSource,
                  applyUpdate, initSt, updateArgsOf, recordStates, invariantOK, embedsAfterStatusWrite, hpv, hf]
          · by_cases hw : cwc = ""
            · simp [process_research, tryBlock, research_with_perplexity, research_with_claude,
                  process_embeddings, generate_summary, writeProcessed, logEvent, updateSource,
                  applyUpdate, initSt, updateArgsOf, recordStates, invariantOK, embedsAfterStatusWrite, hpv, hw]
            · rcases er with ee | ei <;> rcases sr with se | (_ | ss) <;>
                simp [process_research, tryBlock, research_with_perplexity, research_with_claude,
                  process_embeddings, generate_summary, writeProcessed, logEvent, updateSource,
                  applyUpdate, initSt, updateArgsOf, recordStates, invariantOK, embedsAfterStatusWrite, hpv, hw]

/-- Claim C5 counterexample: a successful Perplexity-branch attempt writes the
processed-text file twice — `_research_with_perplexity` writes the raw
cross-checked content (line 360), then `process_research` overwrites it with
the canonical envelope (line 145) — so the file is not "written exactly once
during that attempt" as claimed. -/
theorem claim5_successful_attempt_writes_file_twice :
    (process_research
      ⟨.ok ⟨some "T2", some "D2", some ["https://b.com"], some "perplexity"⟩,
       .ok ⟨true, none, some "draft text", some ["https://b.com"], some "pu"⟩,
       .ok ⟨true, none, some "final text", none, some "cu"⟩,
       none, .ok ⟨true, none, none, none, [], []⟩,
       .ok ⟨true, some "t1", 9, 1, "embedded"⟩, .ok none, "t1"⟩
      ⟨some "S2"⟩ (initSt "uploaded" false none)).1 = .ok ⟨true, none, some "ready"⟩
    ∧ (process_research
      ⟨.ok ⟨some "T2", some "D2", some ["https://b.com"], some "perplexity"⟩,
       .ok ⟨true, none, some "draft text", some ["https://b.com"], some "pu"⟩,
       .ok ⟨true, none, some "final text", none, some "cu"⟩,
       none, .ok ⟨true, none, none, none, [], []⟩,
       .ok ⟨true, some "t1", 9, 1, "embedded"⟩, .ok none, "t1"⟩
      ⟨some "S2"⟩ (initSt "uploaded" false none)).2.fileWrites = 2
    ∧ 1 < (process_research
      ⟨.ok ⟨some "T2", some "D2", some ["https://b.com"], some "perplexity"⟩,
       .ok ⟨true, none, some "draft text", some ["https://b.com"], some "pu"⟩,
       .ok ⟨true, none, some "final text", none, some "cu"⟩,
       none, .ok ⟨true, none, none, none, [], []⟩,
       .ok ⟨true, some "t1", 9, 1, "embedded"⟩, .ok none, "t1"⟩
      ⟨some "S2"⟩ (initSt "uploaded" false none)).2.fileWrites := by
  exact ⟨rfl, rfl, by decide⟩

/-- Claim C5 amended: in the Perplexity branch, a successful attempt writes the
processed-text file exactly twice — first the strategy's raw cross-checked
content, then the canonical envelope, which is the content left on disk — and
an attempt that fails before the strategy write (draft failure, or cross-check
failure) issues no write at all, leaving the prior file content untouched. -/
theorem claim5_write_count_per_attempt
    (tp ds : Option String) (ls : Option (List String)) (nm : Option String)
    (perr dct : Option String) (dci : Option (List String)) (dus : Option Usage)
    (cerr : Option String) (cci : Option (List String)) (cus : Option Usage)
    (cw : Option String) (cres : Except String StrategyResult)
    (er : Except String EmbeddingInfo) (sr : Except String (Option SummaryInfo))
    (now s0 : String) (a0 : Bool) (f0 : Option String) (body : String)
    (h : body ≠ "") :
    (process_research
      ⟨.ok ⟨tp, ds, ls, some "perplexity"⟩, .ok ⟨true, perr, dct, dci, dus⟩,
       .ok ⟨true, cerr, some body, cci, cus⟩, cw, cres, er, sr, now⟩
      ⟨nm⟩ (initSt s0 a0 f0)).2.fileWrites = 2
    ∧ (process_research
      ⟨.ok ⟨tp, ds, ls, some "perplexity"⟩, .ok ⟨true, perr, dct, dci, dus⟩,
       .ok ⟨true, cerr, some body, cci, cus⟩, cw, cres, er, sr, now⟩
      ⟨nm⟩ (initSt s0 a0 f0)).2.file
      = some (build_processed_output [body] "RESEARCH" (nm.getD (tp.getD "Unknown Topic"))
          ⟨tp.getD "Unknown Topic", (ls.getD []).length, body.length, count_tokens body⟩)
    ∧ (process_research
      ⟨.ok ⟨tp, ds, ls, some "perplexity"⟩, .ok ⟨true, perr, dct, dci, dus⟩,
       .ok ⟨true, cerr, some body, cci, cus⟩, cw, cres, er, sr, now⟩
      ⟨nm⟩ (initSt s0 a0 f0)).1 = .ok ⟨true, none, some "ready"⟩
    ∧ (process_research
      ⟨.ok ⟨tp, ds, ls, some "perplexity"⟩, .ok ⟨true, perr, dct, dci, dus⟩,
       .ok ⟨false, cerr, some body, cci, cus⟩, cw, cres, er, sr, now⟩
      ⟨nm⟩ (initSt s0 a0 f0)).2.fileWrites = 0
    ∧ (process_research
      ⟨.ok ⟨tp, ds, ls, some "perplexity"⟩, .ok ⟨true, perr, dct, dci, dus⟩,
       .ok ⟨false, cerr, some body, cci, cus⟩, cw, cres, er, sr, now⟩
      ⟨nm⟩ (initSt s0 a0 f0)).2.file = f0
    ∧ (process_research
      ⟨.ok ⟨tp, ds, ls, some "perplexity"⟩, .ok ⟨false, perr, dct, dci, dus⟩,
       .ok ⟨true, cerr, some body, cci, cus⟩, cw, cres, er, sr, now⟩
      ⟨nm⟩ (initSt s0 a0 f0)).2.fileWrites = 0
    ∧ (process_research
      ⟨.ok ⟨tp, ds, ls, some "perplexity"⟩, .ok ⟨false, perr, dct, dci, dus⟩,
       .ok ⟨true, cerr, some body, cci, cus⟩, cw, cres, er, sr, now⟩
      ⟨nm⟩ (initSt s0 a0 f0)).2.file = f0 := by
  refine ⟨?_, ?_, ?_, rfl, rfl, rfl, rfl⟩ <;>
    rcases er with ee | ei <;> rcases sr with se | (_ | ss) <;>
    simp [process_research, tryBlock, research_with_perplexity, process_embeddings,
      generate_summary, writeProcessed, logEvent, updateSource, applyUpdate, initSt, h]

/-- Claim C5 witness: the amended statement evaluated at a concrete successful and a
concrete failing attempt. -/
theorem claim5_write_count_per_attempt_witness :
    (process_research
      ⟨.ok ⟨some "T", none, none, some "perplexity"⟩, .ok ⟨true, none, none, none, none⟩,
       .ok ⟨true, none, some "B", none, none⟩, none, .ok ⟨false, none, none, none, [], []⟩,
       .ok ⟨false, none, 0, 0, "r"⟩, .ok none, "n"⟩
      ⟨none⟩ (initSt "uploaded" false none)).2.fileWrites = 2
    ∧ (process_research
      ⟨.ok ⟨some "T", none, none, some "perplexity"⟩, .ok ⟨true, none, none, none, none⟩,
       .ok ⟨true, none, some "B", none, none⟩, none, .ok ⟨false, none, none, none, [], []⟩,
       .ok ⟨false, none, 0, 0, "r"⟩, .ok none, "n"⟩
      ⟨none⟩ (initSt "uploaded" false none)).2.file
      = some (build_processed_output ["B"] "RESEARCH" "T" ⟨"T", 0, 1, 1⟩)
    ∧ (process_research
      ⟨.ok ⟨some "T", none, none, some "perplexity"⟩, .ok ⟨true, none, none, none, none⟩,
       .ok ⟨true, none, some "B", none, none⟩, none, .ok ⟨false, none, none, none, [], []⟩,
       .ok ⟨false, none, 0, 0, "r"⟩, .ok none, "n"⟩
      ⟨none⟩ (initSt "uploaded" false none)).1 = .ok ⟨true, none, some "ready"⟩
    ∧ (process_research
      ⟨.ok ⟨some "T", none, none, some "perplexity"⟩, .ok ⟨true, none, none, none, none⟩,
       .ok ⟨false, none, some "B", none, none⟩, none, .ok ⟨false, none, none, none, [], []⟩,
       .ok ⟨false, none, 0, 0, "r"⟩, .ok none, "n"⟩
      ⟨none⟩ (initSt "uploaded" false none)).2.fileWrites = 0
    ∧ (process_research
      ⟨.ok ⟨some "T", none, none, some "perplexity"⟩, .ok ⟨true, none, none, none, none⟩,
       .ok ⟨false, none, some "B", none, none⟩, none, .ok ⟨false, none, none, none, [], []⟩,
       .ok ⟨false, none, 0, 0, "r"⟩, .ok none, "n"⟩
      ⟨none⟩ (initSt "uploaded" false none)).2.file = none
    ∧ (process_research
      ⟨.ok ⟨some "T", none, none, some "perplexity"⟩, .ok ⟨false, none, none, none, none⟩,
       .ok ⟨true, none, some "B", none, none⟩, none, .ok ⟨false, none, none, none, [], []⟩,
       .ok ⟨false, none, 0, 0, "r"⟩, .ok none, "n"⟩
      ⟨none⟩ (initSt "uploaded" false none)).2.fileWrites = 0
    ∧ (process_research
      ⟨.ok ⟨some "T", none, none, some "perplexity"⟩, .ok ⟨false, none, none, none, none⟩,
       .ok ⟨true, none, some "B", none, none⟩, none, .ok ⟨false, none, none, none, [], []⟩,
       .ok ⟨false, none, 0, 0, "r"⟩, .ok none, "n"⟩
      ⟨none⟩ (initSt "uploaded" false none)).2.file = none := by
  exact claim5_write_count_per_attempt (some "T") none none none none none none none
    none none none none (.ok ⟨false, none, none, none, [], []⟩)
    (.ok ⟨false, none, 0, 0, "r"⟩) (.ok none) "n" "uploaded" false none "B" (by decide)

/-- Claim C6: for every attempt, in either provider branch, in which the
research strategy stage succeeds — the try block returns the research content
after the provider dispatch and the output checks, whatever the request,
oracle outcomes and initial state — but the embedding stage raises,
`process_research` still completes the attempt with status = "ready" and
active = true, and the persisted embedding_info has is_embedded = false with a
non-empty reason carrying the captured error string. -/
theorem claim6_embedding_failure_nonfatal
    (req : ResearchRequest) (nm : Option String)
    (pr cr : Except String ProviderResult)
    (cw : Option String) (cres : Except String StrategyResult)
    (sr : Except String (Option SummaryInfo))
    (now s0 : String) (a0 : Bool) (f0 : Option String)
    (ee body : String) (sg it : Nat) (st1 : St)
    (htry : tryBlock ⟨.ok req, pr, cr, cw, cres, .error ee, sr, now⟩
        (req.provider.getD "claude") (initSt s0 a0 f0) = (.ok (body, sg, it), st1)) :
    (process_research ⟨.ok req, pr, cr, cw, cres, .error ee, sr, now⟩ ⟨nm⟩
        (initSt s0 a0 f0)).1 = .ok ⟨true, none, some "ready"⟩
    ∧ (process_research ⟨.ok req, pr, cr, cw, cres, .error ee, sr, now⟩ ⟨nm⟩
        (initSt s0 a0 f0)).2.record.status = "ready"
    ∧ (process_research ⟨.ok req, pr, cr, cw, cres, .error ee, sr, now⟩ ⟨nm⟩
        (initSt s0 a0 f0)).2.record.active = true
    ∧ (process_research ⟨.ok req, pr, cr, cw, cres, .error ee, sr, now⟩ ⟨nm⟩
        (initSt s0 a0 f0)).2.record.embedding_info
      = some ⟨false, none, 0, 0, "Embedding error: " ++ ee⟩
    ∧ ("Embedding error: " ++ ee) ≠ "" := by
  have hne : ("Embedding error: " ++ ee) ≠ "" := by
    intro hh
    have hl := congrArg String.length hh
    simp [String.length_append] at hl
    exact absurd hl.1 (by decide)
  refine ⟨?_, ?_, ?_, ?_, hne⟩ <;>
    rcases sr with se | (_ | ss) <;>
    (unfold process_research
     simp only [htry]
     try simp [process_embeddings, generate_summary, writeProcessed, logEvent,
       updateSource, applyUpdate])

/-- Claim C6 witness: the statement evaluated at a concrete Claude-branch
attempt — the deep-research agent writes "AGENT" and reports success, then the
embedding call raises with message "boom". -/
theorem claim6_embedding_failure_nonfatal_witness :
    (process_research
      ⟨.ok ⟨some "T", none, none, some "claude"⟩, .ok ⟨true, none, none, none, none⟩,
       .ok ⟨true, none, none, none, none⟩, some "AGENT",
       .ok ⟨true, none, some 3, some 4, [], []⟩, .error "boom", .ok none, "n"⟩
      ⟨none⟩ (initSt "uploaded" false none)).1 = .ok ⟨true, none, some "ready"⟩
    ∧ (process_research
      ⟨.ok ⟨some "T", none, none, some "claude"⟩, .ok ⟨true, none, none, none, none⟩,
       .ok ⟨true, none, none, none, none⟩, some "AGENT",
       .ok ⟨true, none, some 3, some 4, [], []⟩, .error "boom", .ok none, "n"⟩
      ⟨none⟩ (initSt "uploaded" false none)).2.record.status = "ready"
    ∧ (process_research
      ⟨.ok ⟨some "T", none, none, some "claude"⟩, .ok ⟨true, none, none, none, none⟩,
       .ok ⟨true, none, none, none, none⟩, some "AGENT",
       .ok ⟨true, none, some 3, some 4, [], []⟩, .error "boom", .ok none, "n"⟩
      ⟨none⟩ (initSt "uploaded" false none)).2.record.active = true
    ∧ (process_research
      ⟨.ok ⟨some "T", none, none, some "claude"⟩, .ok ⟨true, none, none, none, none⟩,
       .ok ⟨true, none, none, none, none⟩, some "AGENT",
       .ok ⟨true, none, some 3, some 4, [], []⟩, .error "boom", .ok none, "n"⟩
      ⟨none⟩ (initSt "uploaded" false none)).2.record.embedding_info
      = some ⟨false, none, 0, 0, "Embedding error: " ++ "boom"⟩
    ∧ ("Embedding error: " ++ "boom") ≠ "" := by
  exact claim6_embedding_failure_nonfatal ⟨some "T", none, none, some "claude"⟩ none
    (.ok ⟨true, none, none, none, none⟩) (.ok ⟨true, none, none, none, none⟩)
    (some "AGENT") (.ok ⟨true, none, some 3, some 4, [], []⟩) (.ok none)
    "n" "uploaded" false none "boom" "AGENT" 3 4
    ⟨⟨"uploaded", false, none, none, none⟩, some "AGENT", 1,
     [.claudeCall, .write "AGENT"]⟩ rfl

/-- Claim C8: for every successful Perplexity-branch attempt, the strategy result
reports success with segments_written = 1, iterations = 2 and a usage object
keyed by provider name ("perplexity" and "claude"); `process_research` records
segments_written = 1 and iterations = 2 in the persisted processing_info,
writes the canonical envelope around the cross-checked content as the
processed file, and returns success with status = "ready". -/
theorem claim8_perplexity_success_result_shape
    (tp ds : Option String) (ls : Option (List String)) (nm : Option String)
    (perr dct : Option String) (dci : Option (List String)) (dus : Option Usage)
    (cerr : Option String) (cci : Option (List String)) (cus : Option Usage)
    (cw : Option String) (cres : Except String StrategyResult)
    (er : Except String EmbeddingInfo) (sr : Except String (Option SummaryInfo))
    (now s0 : String) (a0 : Bool) (f0 : Option String) (body : String)
    (h : body ≠ "") :
    (research_with_perplexity
      ⟨.ok ⟨tp, ds, ls, some "perplexity"⟩, .ok ⟨true, perr, dct, dci, dus⟩,
       .ok ⟨true, cerr, some body, cci, cus⟩, cw, cres, er, sr, now⟩
      (initSt s0 a0 f0)).1
      = .ok ⟨true, none, some 1, some 2,
             [("perplexity", dus.getD ""), ("claude", cus.getD "")], dci.getD []⟩
    ∧ (process_research
      ⟨.ok ⟨tp, ds, ls, some "perplexity"⟩, .ok ⟨true, perr, dct, dci, dus⟩,
       .ok ⟨true, cerr, some body, cci, cus⟩, cw, cres, er, sr, now⟩
      ⟨nm⟩ (initSt s0 a0 f0)).2.record.processing_info
      = some (.okInfo "research_processor" (tp.getD "Unknown Topic")
          (ls.getD []).length body.length (count_tokens body) 1 1 2 now)
    ∧ (process_research
      ⟨.ok ⟨tp, ds, ls, some "perplexity"⟩, .ok ⟨true, perr, dct, dci, dus⟩,
       .ok ⟨true, cerr, some body, cci, cus⟩, cw, cres, er, sr, now⟩
      ⟨nm⟩ (initSt s0 a0 f0)).2.file
      = some (build_processed_output [body] "RESEARCH" (nm.getD (tp.getD "Unknown Topic"))
          ⟨tp.getD "Unknown Topic", (ls.getD []).length, body.length, count_tokens body⟩)
    ∧ (process_research
      ⟨.ok ⟨tp, ds, ls, some "perplexity"⟩, .ok ⟨true, perr, dct, dci, dus⟩,
       .ok ⟨true, cerr, some body, cci, cus⟩, cw, cres, er, sr, now⟩
      ⟨nm⟩ (initSt s0 a0 f0)).1 = .ok ⟨true, none, some "ready"⟩ := by
  refine ⟨rfl, ?_, ?_, ?_⟩ <;>
    rcases er with ee | ei <;> rcases sr with se | (_ | ss) <;>
    simp [process_research, tryBlock, research_with_perplexity, process_embeddings,
      generate_summary, writeProcessed, logEvent, updateSource, applyUpdate, initSt, h]

/-- Claim C8 witness: the spec's example — topic "Quantum Computing", one reference
link, mocked draft "DRAFT" with one citation, mocked cross-check "FINAL" —
yields a processed file whose body after the envelope header is "FINAL",
with processing_info recording iterations = 2 and segments_written = 1. -/
theorem claim8_perplexity_success_result_shape_witness :
    (research_with_perplexity
      ⟨.ok ⟨some "Quantum Computing",
            some "a focus description of at least fifty characters in length!",
            some ["https://a.com"], some "perplexity"⟩,
       .ok ⟨true, none, some "DRAFT", some ["https://a.com"], none⟩,
       .ok ⟨true, none, some "FINAL", none, none⟩, none,
       .ok ⟨false, none, none, none, [], []⟩,
       .ok ⟨true, some "t", 5, 1, "ok"⟩, .ok none, "t0"⟩
      (initSt "uploaded" false none)).1
      = .ok ⟨true, none, some 1, some 2,
             [("perplexity", ""), ("claude", "")], ["https://a.com"]⟩
    ∧ (process_research
      ⟨.ok ⟨some "Quantum Computing",
            some "a focus description of at least fifty characters in length!",
            some ["https://a.com"], some "perplexity"⟩,
       .ok ⟨true, none, some "DRAFT", some ["https://a.com"], none⟩,
       .ok ⟨true, none, some "FINAL", none, none⟩, none,
       .ok ⟨false, none, none, none, [], []⟩,
       .ok ⟨true, some "t", 5, 1, "ok"⟩, .ok none, "t0"⟩
      ⟨none⟩ (initSt "uploaded" false none)).2.record.processing_info
      = some (.okInfo "research_processor" "Quantum Computing" 1 5 5 1 1 2 "t0")
    ∧ (process_research
      ⟨.ok ⟨some "Quantum Computing",
            some "a focus description of at least fifty characters in length!",
            some ["https://a.com"], some "perplexity"⟩,
       .ok ⟨true, none, some "DRAFT", some ["https://a.com"], none⟩,
       .ok ⟨true, none, some "FINAL", none, none⟩, none,
       .ok ⟨false, none, none, none, [], []⟩,
       .ok ⟨true, some "t", 5, 1, "ok"⟩, .ok none, "t0"⟩
      ⟨none⟩ (initSt "uploaded" false none)).2.file
      = some (build_processed_output ["FINAL"] "RESEARCH" "Quantum Computing"
          ⟨"Quantum Computing", 1, 5, 5⟩)
    ∧ (process_research
      ⟨.ok ⟨some "Quantum Computing",
            some "a focus description of at least fifty characters in length!",
            some ["https://a.com"], some "perplexity"⟩,
       .ok ⟨true, none, some "DRAFT", some ["https://a.com"], none⟩,
       .ok ⟨true, none, some "FINAL", none, none⟩, none,
       .ok ⟨false, none, none, none, [], []⟩,
       .ok ⟨true, some "t", 5, 1, "ok"⟩, .ok none, "t0"⟩
      ⟨none⟩ (initSt "uploaded" false none)).1 = .ok ⟨true, none, some "ready"⟩
    ∧ build_processed_output ["FINAL"] "RESEARCH" "Quantum Computing"
        ⟨"Quantum Computing", 1, 5, 5⟩
      = envelope_header "RESEARCH" "Quantum Computing" ⟨"Quantum Computing", 1, 5, 5⟩
        ++ "FINAL" := by
  have hmain := claim8_perplexity_success_result_shape
    (some "Quantum Computing")
    (some "a focus description of at least fifty characters in length!")
    (some ["https://a.com"]) none none (some "DRAFT") (some ["https://a.com"]) none
    none none none none (.ok ⟨false, none, none, none, [], []⟩)
    (.ok ⟨true, some "t", 5, 1, "ok"⟩) (.ok none) "t0" "uploaded" false none
    "FINAL" (by decide)
  exact ⟨hmain.1, hmain.2.1, hmain.2.2.1, hmain.2.2.2, rfl⟩

/-- Claim C9: any research request whose provider tag is not exactly "perplexity"
(a misspelling, an unknown provider, or a missing field, where the tag defaults
to "claude") behaves identically to a request with provider "claude": the
attempt is routed to the Claude branch (the deep-research agent is called, the
Perplexity service is not), and no unknown-provider rejection exists. -/
theorem claim9_unknown_provider_routes_to_claude
    (pv : Option String) (tp ds : Option String) (ls : Option (List String)) (nm : Option String)
    (pr cr : Except String ProviderResult)
    (cw : Option String) (cres : Except String StrategyResult)
    (er : Except String EmbeddingInfo) (sr : Except String (Option SummaryInfo))
    (now s0 : String) (a0 : Bool) (f0 : Option String)
    (h : pv.getD "claude" ≠ "perplexity") :
    process_research ⟨.ok ⟨tp, ds, ls, pv⟩, pr, cr, cw, cres, er, sr, now⟩ ⟨nm⟩
        (initSt s0 a0 f0)
      = process_research ⟨.ok ⟨tp, ds, ls, some "claude"⟩, pr, cr, cw, cres, er, sr, now⟩
        ⟨nm⟩ (initSt s0 a0 f0)
    ∧ Event.claudeCall ∈ (process_research ⟨.ok ⟨tp, ds, ls, pv⟩, pr, cr, cw, cres, er,
        sr, now⟩ ⟨nm⟩ (initSt s0 a0 f0)).2.trace
    ∧ Event.perplexityCall ∉ (process_research ⟨.ok ⟨tp, ds, ls, pv⟩, pr, cr, cw, cres,
        er, sr, now⟩ ⟨nm⟩ (initSt s0 a0 f0)).2.trace := by
  refine ⟨?_, ?_, ?_⟩
  all_goals
    rcases cres with cle | ⟨clsucc, clerr, clsg, clit, clus, clci⟩
    · rcases cw with _ | cwc <;>
        simp [process_research, tryBlock, research_with_claude, process_embeddings,
          generate_summary, writeProcessed, logEvent, updateSource, applyUpdate, initSt, h]
    · cases clsucc
      · rcases cw with _ | cwc <;>
          simp [process_research, tryBlock, research_with_claude, process_embeddings,
            generate_summary, writeProcessed, logEvent, updateSource, applyUpdate, initSt, h]
      · rcases cw with _ | cwc
        · rcases f0 with _ | f0c
          · simp [process_research, tryBlock, research_with_claude, process_embeddings,
              generate_summary, writeProcessed, logEvent, updateSource, applyUpdate, initSt, h]
          · by_cases hf : f0c = ""
            · simp [process_research, tryBlock, research_with_claude, process_embeddings,
                generate_summary, writeProcessed, logEvent, updateSource, applyUpdate,
                initSt, h, hf]
            · rcases er with ee | ei <;> rcases sr with se | (_ | ss) <;>
                simp [process_research, tryBlock, research_with_claude, process_embeddings,
                  generate_summary, writeProcessed, logEvent, updateSource, applyUpdate,
                  initSt, h, hf]
        · by_cases hw : cwc = ""
          · simp [process_research, tryBlock, research_with_claude, process_embeddings,
              generate_summary, writeProcessed, logEvent, updateSource, applyUpdate,
              initSt, h, hw]
          · rcases er with ee | ei <;> rcases sr with se | (_ | ss) <;>
              simp [process_research, tryBlock, research_with_claude, process_embeddings,
                generate_summary, writeProcessed, logEvent, updateSource, applyUpdate,
                initSt, h, hw]

/-- Claim C9 witness: a misspelled provider tag "perplexi" routes to the Claude
branch exactly as provider "claude" does. -/
theorem claim9_unknown_provider_routes_to_claude_witness :
    process_research
      ⟨.ok ⟨some "T", none, none, some "perplexi"⟩,
       .ok ⟨true, none, some "DRAFT", none, none⟩,
       .ok ⟨true, none, some "FINAL", none, none⟩, some "agent output",
       .ok ⟨true, none, some 3, some 4, [], []⟩,
       .ok ⟨true, some "t", 5, 1, "ok"⟩, .ok none, "t0"⟩
      ⟨none⟩ (initSt "uploaded" false none)
      = process_research
      ⟨.ok ⟨some "T", none, none, some "claude"⟩,
       .ok ⟨true, none, some "DRAFT", none, none⟩,
       .ok ⟨true, none, some "FINAL", none, none⟩, some "agent output",
       .ok ⟨true, none, some 3, some 4, [], []⟩,
       .ok ⟨true, some "t", 5, 1, "ok"⟩, .ok none, "t0"⟩
      ⟨none⟩ (initSt "uploaded" false none)
    ∧ Event.claudeCall ∈ (process_research
      ⟨.ok ⟨some "T", none, none, some "perplexi"⟩,
       .ok ⟨true, none, some "DRAFT", none, none⟩,
       .ok ⟨true, none, some "FINAL", none, none⟩, some "agent output",
       .ok ⟨true, none, some 3, some 4, [], []⟩,
       .ok ⟨true, some "t", 5, 1, "ok"⟩, .ok none, "t0"⟩
      ⟨none⟩ (initSt "uploaded" false none)).2.trace
    ∧ Event.perplexityCall ∉ (process_research
      ⟨.ok ⟨some "T", none, none, some "perplexi"⟩,
       .ok ⟨true, none, some "DRAFT", none, none⟩,
       .ok ⟨true, none, some "FINAL", none, none⟩, some "agent output",
       .ok ⟨true, none, some 3, some 4, [], []⟩,
       .ok ⟨true, some "t", 5, 1, "ok"⟩, .ok none, "t0"⟩
      ⟨none⟩ (initSt "uploaded" false none)).2.trace := by
  exact claim9_unknown_provider_routes_to_claude (some "perplexi") (some "T") none none
    none (.ok ⟨true, none, some "DRAFT", none, none⟩)
    (.ok ⟨true, none, some "FINAL", none, none⟩) (some "agent output")
    (.ok ⟨true, none, some 3, some 4, [], []⟩) (.ok ⟨true, some "t", 5, 1, "ok"⟩)
    (.ok none) "t0" "uploaded" false none (by decide)

end NoobBook
